import Mathlib

/-!
Shallow embedding of `dcos_test_utils/dcos_api.py` (Klarrio/dcos-test-utils).

The module is a test-harness client for a DC/OS cluster.  The parts the
claims are about are:

* `DcosApiSession.get_args_from_env` — building constructor arguments from
  environment variables;
* the accessor properties `masters` / `slaves` / `public_slaves` /
  `all_slaves` (Python `sorted` over the stored node lists);
* `set_node_lists_if_unset` — topology discovery from exhibitor and mesos;
* `login_default_user` — authentication;
* `wait_for_dcos` — the readiness sequence, together with the per-probe
  status-code classification and the retry decorators of the individual
  `_wait_for_*` sub-checks.

HTTP traffic is modelled by an explicit environment (`Env`) carrying the
responses the cluster would give, and every modelled operation returns,
next to its `Except` outcome, the list of `Step`s (sub-check invocations
and topology-discovery requests) it performed, so that ordering and
"no request happened" properties can be stated.
-/

namespace DcosApi

/-- Python-level errors that the modelled code can raise:
`typeError` for `str.join` over `None`, `httpError` for
`raise_for_status` on a bad response. -/
inductive PyError
  | typeError
  | httpError
deriving DecidableEq, Repr

/-- `os.getenv(k)` over an explicit association-list environment. -/
def pyGetenv (vars : List (String × String)) (k : String) : Option String :=
  (vars.find? (fun p => p.1 == k)).map (fun p => p.2)

/-- Python truthiness of an optional string (`if windows_slaves:`):
`None` and the empty string are falsy. -/
def pyTruthy : Option String → Bool
  | none => false
  | some s => !(s == "")

/-- `sep.join((a, b))` where either element may be `None`:
joining a `None` raises `TypeError`. -/
def pyJoinPair (sep : String) : Option String → Option String → Except PyError String
  | some a, some b => Except.ok (a ++ sep ++ b)
  | _, _ => Except.error PyError.typeError

/-- Python `sorted` on a list of strings (total lexicographic order). -/
def pySorted (l : List String) : List String :=
  List.insertionSort (fun a b => a ≤ b) l

theorem pySorted_sorted (l : List String) :
    (pySorted l).Sorted (fun a b => a ≤ b) :=
  List.sorted_insertionSort _ l

theorem pySorted_perm (l : List String) : (pySorted l).Perm l :=
  List.perm_insertionSort _ l

theorem pySorted_eq_of_perm {l l' : List String} (h : l.Perm l') :
    pySorted l = pySorted l' :=
  List.eq_of_perm_of_sorted
    ((pySorted_perm l).trans (h.trans (pySorted_perm l').symm))
    (pySorted_sorted l) (pySorted_sorted l')

/-- `DcosUser`: a credential payload plus an optional bearer token
(`auth_token` starts out `None`). -/
structure UserState where
  credentials : List (String × String)
  auth_token : Option String
deriving DecidableEq, Repr

/-- The mutable fields of a `DcosApiSession` that the claims are about:
the three optional node lists, the optional `auth_user`, and the
token installed on the underlying `requests` session (`session.auth`). -/
structure SessionState where
  master_list : Option (List String)
  slave_list : Option (List String)
  public_slave_list : Option (List String)
  auth_user : Option UserState
  session_auth : Option String
deriving DecidableEq, Repr

/-- One entry of the `/mesos/slaves` response: a hostname and the value of
`attributes.get('public_ip')` (absent attribute modelled as `none`). -/
structure MesosSlave where
  hostname : String
  public_ip : Option String
deriving DecidableEq, Repr

/-- One observable action of the modelled session: a readiness sub-check
invocation or an individual topology/login HTTP request. -/
inductive Step
  | checkAdminrouter
  | checkLogin
  | postLogin
  | getExhibitorList
  | getMesosSlaves
  | checkMarathon
  | checkZkQuorum
  | checkSlavesJoin
  | checkSrouterEndpoints
  | checkMetronome
  | checkHealth
deriving DecidableEq, Repr

/-- Exceptions escaping the modelled methods: the explicit configuration
`Exception` of `wait_for_dcos`, an HTTP error from `raise_for_status`,
or a readiness sub-check failing fatally. -/
inductive DcosError
  | configError
  | httpError
  | checkFailed (s : Step)
deriving DecidableEq, Repr

/-- The cluster environment a session run interacts with: the process
environment variables, the responses of the topology/login endpoints, and
the eventual outcome of each readiness sub-check's retry loop (the
probe-level behaviour of the individual checks is modelled separately by
the `*Probe` functions and `runRetry`). -/
structure Env where
  vars : List (String × String)
  adminrouter_ok : Bool
  login_result : Option String
  exhibitor_ok : Bool
  exhibitor_servers : List String
  mesos_ok : Bool
  mesos_slaves : List MesosSlave
  marathon_ok : Bool
  zk_ok : Bool
  slaves_join_ok : Bool
  srouter_ok : Bool
  metronome_ok : Bool
  health_ok : Bool
deriving Repr

/-- The `masters` property: `sorted(self.master_list)`; Python `sorted(None)`
raises `TypeError`. -/
def masters (st : SessionState) : Except PyError (List String) :=
  match st.master_list with
  | none => Except.error PyError.typeError
  | some l => Except.ok (pySorted l)

/-- The `slaves` property: `sorted(self.slave_list)`. -/
def slaves (st : SessionState) : Except PyError (List String) :=
  match st.slave_list with
  | none => Except.error PyError.typeError
  | some l => Except.ok (pySorted l)

/-- The `public_slaves` property: `sorted(self.public_slave_list)`. -/
def public_slaves (st : SessionState) : Except PyError (List String) :=
  match st.public_slave_list with
  | none => Except.error PyError.typeError
  | some l => Except.ok (pySorted l)

/-- The `all_slaves` property: `sorted(self.slaves + self.public_slaves)`. -/
def all_slaves (st : SessionState) : Except PyError (List String) := do
  let s ← slaves st
  let p ← public_slaves st
  pure (pySorted (s ++ p))

/-- `DcosApiSession.login_default_user` (the body inside its retry
decorator): no-op without an `auth_user`; with a token already present it
only installs the token on the session; otherwise it POSTs to the login
endpoint, raising on failure and storing the received token on success. -/
def login_default_user (env : Env) (st : SessionState) :
    List Step × Except DcosError SessionState :=
  match st.auth_user with
  | none => ([], Except.ok st)
  | some u =>
    match u.auth_token with
    | some t => ([], Except.ok { st with session_auth := some t })
    | none =>
      match env.login_result with
      | none => ([Step.postLogin], Except.error DcosError.httpError)
      | some tok =>
        ([Step.postLogin], Except.ok { st with
          auth_user := some { u with auth_token := some tok },
          session_auth := some tok })

/-- The private-slave comprehension of `set_node_lists_if_unset`:
`sorted([s['hostname'] for s in slaves_json if s['attributes'].get('public_ip') != 'true'])`. -/
def privateHostnames (slaves_json : List MesosSlave) : List String :=
  pySorted ((slaves_json.filter (fun s => !(s.public_ip == some "true"))).map
    (fun s => s.hostname))

/-- The public-slave comprehension of `set_node_lists_if_unset`:
`sorted([s['hostname'] for s in slaves_json if s['attributes'].get('public_ip') == 'true'])`. -/
def publicHostnames (slaves_json : List MesosSlave) : List String :=
  pySorted ((slaves_json.filter (fun s => s.public_ip == some "true")).map
    (fun s => s.hostname))

/-- `DcosApiSession.set_node_lists_if_unset`: fetch the master list from
exhibitor when it is `None`; return early when both slave lists are set;
otherwise fetch `/mesos/slaves` once and fill each still-`None` slave list
from the corresponding comprehension. -/
def set_node_lists_if_unset (env : Env) (st : SessionState) :
    List Step × Except DcosError SessionState :=
  let step1 : List Step × Except DcosError SessionState :=
    match st.master_list with
    | none =>
      if env.exhibitor_ok then
        ([Step.getExhibitorList],
          Except.ok { st with master_list := some (pySorted env.exhibitor_servers) })
      else ([Step.getExhibitorList], Except.error DcosError.httpError)
    | some _ => ([], Except.ok st)
  match step1 with
  | (tr1, Except.error e) => (tr1, Except.error e)
  | (tr1, Except.ok st1) =>
    if st1.slave_list.isSome && st1.public_slave_list.isSome then (tr1, Except.ok st1)
    else if env.mesos_ok then
      let slaves_json := env.mesos_slaves
      let st2 := if st1.slave_list.isNone
        then { st1 with slave_list := some (privateHostnames slaves_json) } else st1
      let st3 := if st2.public_slave_list.isNone
        then { st2 with public_slave_list := some (publicHostnames slaves_json) } else st2
      (tr1 ++ [Step.getMesosSlaves], Except.ok st3)
    else (tr1 ++ [Step.getMesosSlaves], Except.error DcosError.httpError)

/-- The two sub-checks `wait_for_dcos` runs before its configuration check:
`_wait_for_adminrouter_up` then `login_default_user`. -/
def preTrace : List Step := [Step.checkAdminrouter, Step.checkLogin]

/-- The readiness sub-checks `wait_for_dcos` runs after topology
resolution, in source order. -/
def postTrace : List Step :=
  [Step.checkMarathon, Step.checkZkQuorum, Step.checkSlavesJoin,
   Step.checkSrouterEndpoints, Step.checkMetronome, Step.checkHealth]

/-- The tail of `wait_for_dcos`: `_wait_for_marathon_up`,
`_wait_for_zk_quorum`, `_wait_for_slaves_to_join`,
`_wait_for_srouter_slaves_endpoints`, `_wait_for_metronome`,
`_wait_for_all_healthy_services`, each aborting the sequence on failure. -/
def tailChecks (env : Env) (st : SessionState) :
    List Step × Except DcosError SessionState :=
  if env.marathon_ok = false then
    ([Step.checkMarathon], Except.error (DcosError.checkFailed Step.checkMarathon))
  else if env.zk_ok = false then
    ([Step.checkMarathon, Step.checkZkQuorum],
      Except.error (DcosError.checkFailed Step.checkZkQuorum))
  else if env.slaves_join_ok = false then
    ([Step.checkMarathon, Step.checkZkQuorum, Step.checkSlavesJoin],
      Except.error (DcosError.checkFailed Step.checkSlavesJoin))
  else if env.srouter_ok = false then
    ([Step.checkMarathon, Step.checkZkQuorum, Step.checkSlavesJoin,
      Step.checkSrouterEndpoints],
      Except.error (DcosError.checkFailed Step.checkSrouterEndpoints))
  else if env.metronome_ok = false then
    ([Step.checkMarathon, Step.checkZkQuorum, Step.checkSlavesJoin,
      Step.checkSrouterEndpoints, Step.checkMetronome],
      Except.error (DcosError.checkFailed Step.checkMetronome))
  else if env.health_ok = false then
    (postTrace, Except.error (DcosError.checkFailed Step.checkHealth))
  else (postTrace, Except.ok st)

/-- `DcosApiSession.wait_for_dcos`: admin-router connectivity, login, the
`WAIT_FOR_HOSTS` configuration check (raising the configuration
`Exception` when waiting is demanded but some node list is missing),
topology resolution via `set_node_lists_if_unset`, then the six remaining
readiness sub-checks in source order. -/
def wait_for_dcos (env : Env) (st : SessionState) :
    List Step × Except DcosError SessionState :=
  if env.adminrouter_ok = false then
    ([Step.checkAdminrouter], Except.error (DcosError.checkFailed Step.checkAdminrouter))
  else
    match login_default_user env st with
    | (_, Except.error e) => (preTrace, Except.error e)
    | (_, Except.ok st1) =>
      let wait_for_hosts := ((pyGetenv env.vars "WAIT_FOR_HOSTS").getD "true") == "true"
      let node_lists_set := st1.master_list.isSome && st1.slave_list.isSome &&
        st1.public_slave_list.isSome
      if wait_for_hosts && !node_lists_set then
        (preTrace, Except.error DcosError.configError)
      else
        match set_node_lists_if_unset env st1 with
        | (d, Except.error e) => (preTrace ++ d, Except.error e)
        | (d, Except.ok st2) =>
          let (t, r) := tailChecks env st2
          (preTrace ++ d ++ t, r)

/-- Modelled stand-in for `helpers.CI_CREDENTIALS`, which is defined in a
sibling module outside this one; its exact content is irrelevant to every
claim, only that it is some fixed credential payload. -/
def CI_CREDENTIALS : List (String × String) := [("token", "ci-dummy")]

/-- The keyword arguments `get_args_from_env` returns. Note the asymmetry
in the source: `masters` defaults to `None` but `slaves` and
`public_slaves` default to the empty list. -/
structure ArgsResult where
  dcos_url : String
  masters : Option (List String)
  slaves : List String
  public_slaves : List String
  auth_user : UserState
deriving DecidableEq, Repr

/-- `DcosApiSession.get_args_from_env`: reads the environment variables,
concatenates the Windows host lists onto the plain ones with `','.join`
(which raises `TypeError` when the plain variable is unset, i.e. `None`),
and splits on commas. -/
def get_args_from_env (vars : List (String × String)) : Except PyError ArgsResult := do
  let auth_user : UserState :=
    match pyGetenv vars "DCOS_ACS_TOKEN" with
    | none => { credentials := CI_CREDENTIALS, auth_token := none }
    | some tok => { credentials := [("token", "")], auth_token := some tok }
  let masters := pyGetenv vars "MASTER_HOSTS"
  let slaves0 := pyGetenv vars "SLAVE_HOSTS"
  let windows_slaves := pyGetenv vars "WINDOWS_HOSTS"
  let public0 := pyGetenv vars "PUBLIC_SLAVE_HOSTS"
  let windows_public_slaves := pyGetenv vars "WINDOWS_PUBLIC_HOSTS"
  let slaves ←
    if pyTruthy windows_slaves then do
      let j ← pyJoinPair "," slaves0 windows_slaves
      pure (some j)
    else pure slaves0
  let public_slaves ←
    if pyTruthy windows_public_slaves then do
      let j ← pyJoinPair "," public0 windows_public_slaves
      pure (some j)
    else pure public0
  pure {
    dcos_url := (pyGetenv vars "DCOS_DNS_ADDRESS").getD "http://leader.mesos"
    masters := masters.map (fun s => s.splitOn ",")
    slaves := (slaves.map (fun s => s.splitOn ",")).getD []
    public_slaves := (public_slaves.map (fun s => s.splitOn ",")).getD []
    auth_user := auth_user }

/-- How one probe (one HTTP round trip of a `_wait_for_*` body) is
classified by the check: success, retryable not-ready, or a fatal error
(an `assert` failure / uncaught exception, which the retry decorators with
`retry_on_exception=lambda _: False` do not retry). -/
inductive ProbeResult
  | ready
  | notReady
  | fatal
deriving DecidableEq, Repr

/-- Body of `_wait_for_marathon_up`: `True` (success) on status 200,
`False` (retry) on every other status code; it never raises on a status. -/
def marathonProbe (status : Nat) : ProbeResult :=
  if status = 200 then ProbeResult.ready else ProbeResult.notReady

/-- Body of `_wait_for_metronome`: retry on 404, 504 and every status
`>= 500`; succeed on 200; `assert` (raise) on everything else. -/
def metronomeProbe (status : Nat) : ProbeResult :=
  if status = 404 ∨ status = 504 ∨ 500 ≤ status then ProbeResult.notReady
  else if status = 200 then ProbeResult.ready
  else ProbeResult.fatal

/-- The `/mesos/master/slaves` request at the start of
`_wait_for_srouter_slaves_endpoints`: retry on 502, proceed on 200,
`assert` (raise) on everything else. -/
def srouterSlavesListProbe (status : Nat) : ProbeResult :=
  if status = 502 then ProbeResult.notReady
  else if status = 200 then ProbeResult.ready
  else ProbeResult.fatal

/-- The per-slave `/slave/{id}/slave(1)/state` request of
`_wait_for_srouter_slaves_endpoints`: retry on the in-progress codes
404, 502, 503; proceed on 200; `assert` (raise) on everything else. -/
def srouterSlaveStateProbe (status : Nat) : ProbeResult :=
  if status = 404 ∨ status = 502 ∨ status = 503 then ProbeResult.notReady
  else if status = 200 then ProbeResult.ready
  else ProbeResult.fatal

/-- The retry-decorated methods of the readiness sequence. -/
inductive Check
  | adminrouterUp
  | marathonUp
  | zkQuorum
  | slavesJoin
  | srouterEndpoints
  | metronome
  | healthyServices
deriving DecidableEq, Repr

/-- The `stop_max_attempt_number` argument of each check's
`@retrying.retry` decorator: only `_wait_for_srouter_slaves_endpoints`
has one (60); the others have no attempt bound. -/
def stopMaxAttemptNumber : Check → Option Nat
  | Check.srouterEndpoints => some 60
  | _ => none

/-- Whether the check's `@retrying.retry` decorator retries on an
exception raised by the body: `_wait_for_zk_quorum` passes no
`retry_on_exception`, so the `retrying` library default (retry on every
exception) applies; every other check passes
`retry_on_exception=lambda _: False`. -/
def retriesOnException : Check → Bool
  | Check.zkQuorum => true
  | _ => false

/-- Whether the check's body itself catches `requests.ConnectionError` and
converts it into a retry (`_wait_for_adminrouter_up` does). -/
def catchesConnectionError : Check → Bool
  | Check.adminrouterUp => true
  | _ => false

/-- Outcome of running a retry loop for a bounded number of observed
attempts (`fuel`): success, the hard `RetryError` raised once
`stop_max_attempt_number` is exhausted, a fatal (unretried) error, or
"still retrying" when the fuel ran out with the loop still going. -/
inductive RetryOutcome
  | succeeded
  | hardFail
  | fatalErr
  | stillRetrying
deriving DecidableEq, Repr

/-- Semantics of a `@retrying.retry(retry_on_result=lambda r: r is False,
retry_on_exception=lambda _: False, stop_max_attempt_number=...)` loop:
`attempt` counts the probes already made, and with an attempt bound `m`
the loop raises `RetryError` (`hardFail`) after the `m`-th failed probe. -/
def runRetry (maxAttempts : Option Nat) (probe : Nat → ProbeResult) :
    Nat → Nat → RetryOutcome
  | 0, _ => RetryOutcome.stillRetrying
  | fuel + 1, attempt =>
    match probe attempt with
    | ProbeResult.ready => RetryOutcome.succeeded
    | ProbeResult.fatal => RetryOutcome.fatalErr
    | ProbeResult.notReady =>
      match maxAttempts with
      | some m =>
        if m ≤ attempt + 1 then RetryOutcome.hardFail
        else runRetry maxAttempts probe fuel (attempt + 1)
      | none => runRetry maxAttempts probe fuel (attempt + 1)

/-- A cluster environment in which every endpoint responds and every
sub-check eventually succeeds; `vars` is empty, so `WAIT_FOR_HOSTS`
defaults to `'true'`. -/
def envAllOk : Env where
  vars := []
  adminrouter_ok := true
  login_result := some "tok"
  exhibitor_ok := true
  exhibitor_servers := ["10.0.0.2", "10.0.0.1"]
  mesos_ok := true
  mesos_slaves := [{ hostname := "10.0.1.1", public_ip := none },
                   { hostname := "10.0.2.1", public_ip := some "true" }]
  marathon_ok := true
  zk_ok := true
  slaves_join_ok := true
  srouter_ok := true
  metronome_ok := true
  health_ok := true

/-- `envAllOk` with `WAIT_FOR_HOSTS=false` in the environment. -/
def envNoWait : Env := { envAllOk with vars := [("WAIT_FOR_HOSTS", "false")] }

/-- A session with all three node lists supplied and no auth user. -/
def stAllSet : SessionState where
  master_list := some ["10.0.0.1"]
  slave_list := some ["10.0.1.1"]
  public_slave_list := some ["10.0.2.1"]
  auth_user := none
  session_auth := none

/-- A session whose master list was not supplied. -/
def stNoMasters : SessionState := { stAllSet with master_list := none }

/-- A session whose private slave list was not supplied. -/
def stNoSlaves : SessionState := { stAllSet with slave_list := none }

/-- A session with no node list supplied. -/
def stAllNone : SessionState :=
  { stAllSet with master_list := none, slave_list := none, public_slave_list := none }

/-- A session whose default user already holds an auth token. -/
def stLoggedIn : SessionState :=
  { stAllSet with
    auth_user := some { credentials := [("uid", "u")], auth_token := some "tok0" } }

/-- A session with only the private slave list missing while an
authenticated default user is attached. -/
def stNoSlavesAuth : SessionState :=
  { stAllSet with
    slave_list := none,
    auth_user := some { credentials := [("uid", "u")], auth_token := some "tok0" } }

/-- `stNoSlavesAuth` after login has installed its token on the session. -/
def stNoSlavesAuth1 : SessionState := { stNoSlavesAuth with session_auth := some "tok0" }

end DcosApi

namespace DcosApi

/-- C9: there is an environment with `WINDOWS_HOSTS` set to a non-empty
string while `SLAVE_HOSTS` is unset on which `get_args_from_env` raises a
`TypeError` (from `','.join((None, windows_slaves))`) instead of
returning an argument dict. -/
theorem get_args_from_env_type_error :
    ∃ vars : List (String × String),
      pyGetenv vars "SLAVE_HOSTS" = none ∧
      pyTruthy (pyGetenv vars "WINDOWS_HOSTS") = true ∧
      get_args_from_env vars = Except.error PyError.typeError :=
  ⟨[("WINDOWS_HOSTS", "10.0.0.5")], rfl, rfl, rfl⟩

/-- C5: `login_default_user` is idempotent: when the session's `auth_user`
already holds an auth token, the call performs no HTTP request (empty
request list) and returns with the user — credentials and token —
unchanged (only `session.auth` is re-installed). -/
theorem login_default_user_idempotent (env : Env) (st : SessionState)
    (u : UserState) (t : String)
    (h1 : st.auth_user = some u) (h2 : u.auth_token = some t) :
    (login_default_user env st).1 = [] ∧
    ∃ st', (login_default_user env st).2 = Except.ok st' ∧
      st'.auth_user = st.auth_user := by
  refine ⟨?_, { st with session_auth := some t }, ?_, rfl⟩ <;>
    simp [login_default_user, h1, h2]

/-- Closed instance of `login_default_user_idempotent` at a session whose
user already holds a token. -/
theorem login_default_user_idempotent_witness :
    (login_default_user envAllOk stLoggedIn).1 = [] ∧
    ∃ st', (login_default_user envAllOk stLoggedIn).2 = Except.ok st' ∧
      st'.auth_user = stLoggedIn.auth_user :=
  login_default_user_idempotent envAllOk stLoggedIn
    { credentials := [("uid", "u")], auth_token := some "tok0" } "tok0" rfl rfl

/-- C4: with all three node lists supplied, `set_node_lists_if_unset`
performs no topology-discovery request (neither the exhibitor cluster
list nor `/mesos/slaves` is fetched) and returns the session unchanged. -/
theorem set_node_lists_if_unset_noop (env : Env) (st : SessionState)
    (m s p : List String)
    (hm : st.master_list = some m) (hs : st.slave_list = some s)
    (hp : st.public_slave_list = some p) :
    set_node_lists_if_unset env st = ([], Except.ok st) := by
  simp [set_node_lists_if_unset, hm, hs, hp]

/-- Closed instance of `set_node_lists_if_unset_noop` at a fully supplied
session. -/
theorem set_node_lists_if_unset_noop_witness :
    set_node_lists_if_unset envAllOk stAllSet = ([], Except.ok stAllSet) :=
  set_node_lists_if_unset_noop envAllOk stAllSet _ _ _ rfl rfl rfl

/-- `all_slaves` on supplied lists is the sort of the concatenation of the
raw private and public lists (the double sort in the source collapses). -/
theorem all_slaves_eq_sorted_concat (m s p : List String)
    (au : Option UserState) (sa : Option String) :
    all_slaves ⟨some m, some s, some p, au, sa⟩ =
      Except.ok (pySorted (s ++ p)) := by
  have hdef : all_slaves ⟨some m, some s, some p, au, sa⟩ =
      Except.ok (pySorted (pySorted s ++ pySorted p)) := rfl
  rw [hdef, pySorted_eq_of_perm ((pySorted_perm s).append (pySorted_perm p))]

/-- C8: on a session with all node lists supplied, `masters`, `slaves`,
`public_slaves` and `all_slaves` each return a sorted list, the result
does not depend on the order in which the node identifiers were supplied
(permuted inputs give identical output), and `all_slaves` is the sorted
concatenation of the private and public slave lists. -/
theorem accessors_sorted_and_order_independent
    (m s p m2 s2 p2 : List String) (au : Option UserState) (sa : Option String)
    (hm : m.Perm m2) (hs : s.Perm s2) (hp : p.Perm p2) :
    masters ⟨some m, some s, some p, au, sa⟩ =
      Except.ok (pySorted m) ∧
    (pySorted m).Sorted (fun a b => a ≤ b) ∧
    masters ⟨some m, some s, some p, au, sa⟩ =
      masters ⟨some m2, some s2, some p2, au, sa⟩ ∧
    slaves ⟨some m, some s, some p, au, sa⟩ =
      Except.ok (pySorted s) ∧
    (pySorted s).Sorted (fun a b => a ≤ b) ∧
    slaves ⟨some m, some s, some p, au, sa⟩ =
      slaves ⟨some m2, some s2, some p2, au, sa⟩ ∧
    public_slaves ⟨some m, some s, some p, au, sa⟩ =
      Except.ok (pySorted p) ∧
    (pySorted p).Sorted (fun a b => a ≤ b) ∧
    public_slaves ⟨some m, some s, some p, au, sa⟩ =
      public_slaves ⟨some m2, some s2, some p2, au, sa⟩ ∧
    all_slaves ⟨some m, some s, some p, au, sa⟩ =
      Except.ok (pySorted (s ++ p)) ∧
    (pySorted (s ++ p)).Sorted (fun a b => a ≤ b) ∧
    all_slaves ⟨some m, some s, some p, au, sa⟩ =
      all_slaves ⟨some m2, some s2, some p2, au, sa⟩ := by
  refine ⟨rfl, pySorted_sorted m, ?_, rfl, pySorted_sorted s, ?_,
    rfl, pySorted_sorted p, ?_, all_slaves_eq_sorted_concat m s p au sa,
    pySorted_sorted (s ++ p), ?_⟩
  · simp [masters, pySorted_eq_of_perm hm]
  · simp [slaves, pySorted_eq_of_perm hs]
  · simp [public_slaves, pySorted_eq_of_perm hp]
  · rw [all_slaves_eq_sorted_concat m s p au sa, all_slaves_eq_sorted_concat m2 s2 p2 au sa,
      pySorted_eq_of_perm (hs.append hp)]

/-- Closed instance of `accessors_sorted_and_order_independent` at
concrete permuted host lists. -/
theorem accessors_sorted_and_order_independent_witness :
    masters ⟨some ["b", "a"], some ["d", "c"], some ["f", "e"], none, none⟩ =
      Except.ok (pySorted ["b", "a"]) ∧
    (pySorted ["b", "a"]).Sorted (fun a b => a ≤ b) ∧
    masters ⟨some ["b", "a"], some ["d", "c"], some ["f", "e"], none, none⟩ =
      masters ⟨some ["a", "b"], some ["c", "d"], some ["e", "f"], none, none⟩ ∧
    slaves ⟨some ["b", "a"], some ["d", "c"], some ["f", "e"], none, none⟩ =
      Except.ok (pySorted ["d", "c"]) ∧
    (pySorted ["d", "c"]).Sorted (fun a b => a ≤ b) ∧
    slaves ⟨some ["b", "a"], some ["d", "c"], some ["f", "e"], none, none⟩ =
      slaves ⟨some ["a", "b"], some ["c", "d"], some ["e", "f"], none, none⟩ ∧
    public_slaves ⟨some ["b", "a"], some ["d", "c"], some ["f", "e"], none, none⟩ =
      Except.ok (pySorted ["f", "e"]) ∧
    (pySorted ["f", "e"]).Sorted (fun a b => a ≤ b) ∧
    public_slaves ⟨some ["b", "a"], some ["d", "c"], some ["f", "e"], none, none⟩ =
      public_slaves ⟨some ["a", "b"], some ["c", "d"], some ["e", "f"], none, none⟩ ∧
    all_slaves ⟨some ["b", "a"], some ["d", "c"], some ["f", "e"], none, none⟩ =
      Except.ok (pySorted (["d", "c"] ++ ["f", "e"])) ∧
    (pySorted (["d", "c"] ++ ["f", "e"])).Sorted (fun a b => a ≤ b) ∧
    all_slaves ⟨some ["b", "a"], some ["d", "c"], some ["f", "e"], none, none⟩ =
      all_slaves ⟨some ["a", "b"], some ["c", "d"], some ["e", "f"], none, none⟩ :=
  accessors_sorted_and_order_independent ["b", "a"] ["d", "c"] ["f", "e"]
    ["a", "b"] ["c", "d"] ["e", "f"] none none
    (List.Perm.swap "a" "b" []) (List.Perm.swap "c" "d" []) (List.Perm.swap "e" "f" [])

/-- C3 counterexample: the marathon sub-check, on HTTP status 403 — a
non-2xx status outside every transient set — returns not-ready and is
retried; it does not fail fatally as the claim requires. -/
theorem marathon_403_retries_not_fatal :
    marathonProbe 403 = ProbeResult.notReady ∧
    marathonProbe 403 ≠ ProbeResult.fatal := by
  exact ⟨rfl, by decide⟩

/-- C3 amended: the metronome and per-node (srouter) sub-checks return
not-ready on exactly their transient status codes and fail fatally on
every other non-2xx status, while the marathon sub-check treats every
non-200 status as not-ready and retries; exceptions escape the retry loop
for marathon, slaves-join, srouter, metronome and health
(`retry_on_exception=lambda _: False`), but the zk-quorum decorator
retries on exceptions. -/
theorem probe_status_classification (status : Nat) :
    (status ≠ 200 → marathonProbe status = ProbeResult.notReady) ∧
    (marathonProbe 200 = ProbeResult.ready) ∧
    ((status = 404 ∨ status = 504 ∨ 500 ≤ status) →
      metronomeProbe status = ProbeResult.notReady) ∧
    (¬(status = 404 ∨ status = 504 ∨ 500 ≤ status) →
      ¬(200 ≤ status ∧ status < 300) → metronomeProbe status = ProbeResult.fatal) ∧
    (metronomeProbe 200 = ProbeResult.ready) ∧
    ((status = 404 ∨ status = 502 ∨ status = 503) →
      srouterSlaveStateProbe status = ProbeResult.notReady) ∧
    (¬(status = 404 ∨ status = 502 ∨ status = 503) →
      ¬(200 ≤ status ∧ status < 300) →
      srouterSlaveStateProbe status = ProbeResult.fatal) ∧
    (srouterSlaveStateProbe 200 = ProbeResult.ready) ∧
    (status = 502 → srouterSlavesListProbe status = ProbeResult.notReady) ∧
    (status ≠ 502 → ¬(200 ≤ status ∧ status < 300) →
      srouterSlavesListProbe status = ProbeResult.fatal) ∧
    (srouterSlavesListProbe 200 = ProbeResult.ready) ∧
    retriesOnException Check.marathonUp = false ∧
    retriesOnException Check.slavesJoin = false ∧
    retriesOnException Check.srouterEndpoints = false ∧
    retriesOnException Check.metronome = false ∧
    retriesOnException Check.healthyServices = false ∧
    retriesOnException Check.zkQuorum = true := by
  refine ⟨fun h => ?_, rfl, fun h => ?_, fun h1 h2 => ?_, rfl, fun h => ?_,
    fun h1 h2 => ?_, rfl, fun h => ?_, fun h1 h2 => ?_, rfl,
    rfl, rfl, rfl, rfl, rfl, rfl⟩
  · unfold marathonProbe
    rw [if_neg h]
  · unfold metronomeProbe
    rw [if_pos h]
  · have h200 : ¬ status = 200 := fun he => h2 ⟨by omega, by omega⟩
    unfold metronomeProbe
    rw [if_neg h1, if_neg h200]
  · unfold srouterSlaveStateProbe
    rw [if_pos h]
  · have h200 : ¬ status = 200 := fun he => h2 ⟨by omega, by omega⟩
    unfold srouterSlaveStateProbe
    rw [if_neg h1, if_neg h200]
  · unfold srouterSlavesListProbe
    rw [if_pos h]
  · have h200 : ¬ status = 200 := fun he => h2 ⟨by omega, by omega⟩
    unfold srouterSlavesListProbe
    rw [if_neg h1, if_neg h200]

/-- Closed instance of `probe_status_classification`: marathon retries a
404 and metronome raises on a 403. -/
theorem probe_status_classification_witness :
    marathonProbe 404 = ProbeResult.notReady ∧
    metronomeProbe 403 = ProbeResult.fatal :=
  ⟨(probe_status_classification 404).1 (by decide),
   (probe_status_classification 403).2.2.2.1 (by decide) (by decide)⟩

/-- An unbounded retry loop (`maxAttempts = none`) never gives up while
the probe keeps returning not-ready. -/
theorem runRetry_none_stillRetrying (probe : Nat → ProbeResult)
    (h : ∀ n, probe n = ProbeResult.notReady) :
    ∀ fuel attempt, runRetry none probe fuel attempt = RetryOutcome.stillRetrying := by
  intro fuel
  induction fuel with
  | zero => intro a; rfl
  | succ f ih =>
    intro a
    simp only [runRetry, h a]
    exact ih (a + 1)

/-- A retry loop with attempt bound `m` raises the hard `RetryError` once
`m` not-ready probes have been observed. -/
theorem runRetry_bounded_hardFail (probe : Nat → ProbeResult) (m : Nat)
    (h : ∀ n, probe n = ProbeResult.notReady) :
    ∀ fuel attempt, 1 ≤ fuel → m ≤ fuel + attempt →
      runRetry (some m) probe fuel attempt = RetryOutcome.hardFail := by
  intro fuel
  induction fuel with
  | zero => intro a h1 _; exact absurd h1 (by decide)
  | succ f ih =>
    intro a _ h2
    by_cases hc : m ≤ a + 1
    · simp only [runRetry, h a]
      rw [if_pos hc]
    · have hf : 1 ≤ f := by omega
      have h2' : m ≤ f + (a + 1) := by omega
      simp only [runRetry, h a]
      rw [if_neg hc]
      exact ih (a + 1) hf h2'

/-- C7: the per-node endpoint check's retry decorator carries
`stop_max_attempt_number=60`, so with a permanently not-ready probe it
raises a hard failure once 60 attempts have been made, while the
marathon, zk-quorum, slaves-join, metronome and health checks carry no
attempt bound and are still retrying after any number of attempts. -/
theorem retry_attempt_bounds (probe : Nat → ProbeResult)
    (h : ∀ n, probe n = ProbeResult.notReady) :
    (∀ fuel, 60 ≤ fuel →
      runRetry (stopMaxAttemptNumber Check.srouterEndpoints) probe fuel 0 =
        RetryOutcome.hardFail) ∧
    (∀ c, (c = Check.marathonUp ∨ c = Check.zkQuorum ∨ c = Check.slavesJoin ∨
        c = Check.metronome ∨ c = Check.healthyServices) →
      ∀ fuel, runRetry (stopMaxAttemptNumber c) probe fuel 0 =
        RetryOutcome.stillRetrying) := by
  constructor
  · intro fuel hf
    have hstop : stopMaxAttemptNumber Check.srouterEndpoints = some 60 := rfl
    rw [hstop]
    exact runRetry_bounded_hardFail probe 60 h fuel 0 (by omega) (by omega)
  · rintro c (rfl | rfl | rfl | rfl | rfl) fuel <;>
      exact runRetry_none_stillRetrying probe h fuel 0

/-- Closed instance of `retry_attempt_bounds` with an always-not-ready
probe: the srouter loop hard-fails at 60 attempts, the marathon loop is
still retrying after 100. -/
theorem retry_attempt_bounds_witness :
    runRetry (stopMaxAttemptNumber Check.srouterEndpoints)
      (fun _ => ProbeResult.notReady) 60 0 = RetryOutcome.hardFail ∧
    runRetry (stopMaxAttemptNumber Check.marathonUp)
      (fun _ => ProbeResult.notReady) 100 0 = RetryOutcome.stillRetrying :=
  ⟨(retry_attempt_bounds _ (fun _ => rfl)).1 60 (by decide),
   (retry_attempt_bounds _ (fun _ => rfl)).2 Check.marathonUp (Or.inl rfl) 100⟩

/-- Every observed mesos slave record passes exactly one of the two
comprehension filters of `set_node_lists_if_unset` — the public one
exactly when `attributes.get('public_ip') == 'true'` — and its hostname
is in the corresponding hostname list. -/
theorem mesos_slave_assignment (json : List MesosSlave) (x : MesosSlave)
    (hx : x ∈ json) :
    (x.public_ip = some "true" ∧
      x ∈ json.filter (fun s => s.public_ip == some "true") ∧
      x ∉ json.filter (fun s => !(s.public_ip == some "true")) ∧
      x.hostname ∈ publicHostnames json) ∨
    (x.public_ip ≠ some "true" ∧
      x ∉ json.filter (fun s => s.public_ip == some "true") ∧
      x ∈ json.filter (fun s => !(s.public_ip == some "true")) ∧
      x.hostname ∈ privateHostnames json) := by
  by_cases h : x.public_ip = some "true"
  · left
    have hmem : x ∈ json.filter (fun s => s.public_ip == some "true") :=
      List.mem_filter.mpr ⟨hx, by simp [h]⟩
    refine ⟨h, hmem, ?_, ?_⟩
    · intro hbad
      have hb := (List.mem_filter.mp hbad).2
      simp [h] at hb
    · exact (pySorted_perm _).mem_iff.mpr
        (List.mem_map_of_mem (fun s => s.hostname) hmem)
  · right
    have hmem : x ∈ json.filter (fun s => !(s.public_ip == some "true")) :=
      List.mem_filter.mpr ⟨hx, by simp [h]⟩
    refine ⟨h, ?_, hmem, ?_⟩
    · intro hbad
      have hb := (List.mem_filter.mp hbad).2
      simp [h] at hb
    · exact (pySorted_perm _).mem_iff.mpr
        (List.mem_map_of_mem (fun s => s.hostname) hmem)

/-- C10: whenever `set_node_lists_if_unset` consults mesos (some slave
list is `None`) and the requests succeed, a list that was `None` is set
from the corresponding comprehension while a list that was already
supplied is left unchanged, and each observed slave is assigned to
exactly one comprehension: the public one exactly when its `public_ip`
attribute equals the string `'true'`. -/
theorem set_node_lists_mesos_partition (env : Env) (st : SessionState)
    (hne : ¬(st.slave_list.isSome = true ∧ st.public_slave_list.isSome = true))
    (hmaster : st.master_list ≠ none ∨ env.exhibitor_ok = true)
    (hmes : env.mesos_ok = true) :
    ∃ st', (set_node_lists_if_unset env st).2 = Except.ok st' ∧
      st'.slave_list = (if st.slave_list = none
        then some (privateHostnames env.mesos_slaves) else st.slave_list) ∧
      st'.public_slave_list = (if st.public_slave_list = none
        then some (publicHostnames env.mesos_slaves) else st.public_slave_list) ∧
      ∀ x ∈ env.mesos_slaves,
        (x.public_ip = some "true" ∧ x.hostname ∈ publicHostnames env.mesos_slaves ∧
          x ∉ env.mesos_slaves.filter (fun s => !(s.public_ip == some "true"))) ∨
        (x.public_ip ≠ some "true" ∧ x.hostname ∈ privateHostnames env.mesos_slaves ∧
          x ∉ env.mesos_slaves.filter (fun s => s.public_ip == some "true")) := by
  have hforall : ∀ x ∈ env.mesos_slaves,
      (x.public_ip = some "true" ∧ x.hostname ∈ publicHostnames env.mesos_slaves ∧
        x ∉ env.mesos_slaves.filter (fun s => !(s.public_ip == some "true"))) ∨
      (x.public_ip ≠ some "true" ∧ x.hostname ∈ privateHostnames env.mesos_slaves ∧
        x ∉ env.mesos_slaves.filter (fun s => s.public_ip == some "true")) := by
    intro x hx
    rcases mesos_slave_assignment env.mesos_slaves x hx with
      ⟨h1, _, h3, h4⟩ | ⟨h1, h2, _, h4⟩
    · exact Or.inl ⟨h1, h4, h3⟩
    · exact Or.inr ⟨h1, h4, h2⟩
  rcases hsl : st.slave_list with _ | sv
  · rcases hpl : st.public_slave_list with _ | pv
    · rcases hml : st.master_list with _ | mv
      · rcases hmaster with hne' | hex
        · exact absurd hml hne'
        · refine ⟨{ st with
              master_list := some (pySorted env.exhibitor_servers),
              slave_list := some (privateHostnames env.mesos_slaves),
              public_slave_list := some (publicHostnames env.mesos_slaves) },
            ?_, by simp [hsl], by simp [hpl], hforall⟩
          simp [set_node_lists_if_unset, hml, hsl, hpl, hmes, hex]
      · refine ⟨{ st with
            slave_list := some (privateHostnames env.mesos_slaves),
            public_slave_list := some (publicHostnames env.mesos_slaves) },
          ?_, by simp [hsl], by simp [hpl], hforall⟩
        simp [set_node_lists_if_unset, hml, hsl, hpl, hmes]
    · rcases hml : st.master_list with _ | mv
      · rcases hmaster with hne' | hex
        · exact absurd hml hne'
        · refine ⟨{ st with
              master_list := some (pySorted env.exhibitor_servers),
              slave_list := some (privateHostnames env.mesos_slaves) },
            ?_, by simp [hsl], by simp [hpl], hforall⟩
          simp [set_node_lists_if_unset, hml, hsl, hpl, hmes, hex]
      · refine ⟨{ st with
            slave_list := some (privateHostnames env.mesos_slaves) },
          ?_, by simp [hsl], by simp [hpl], hforall⟩
        simp [set_node_lists_if_unset, hml, hsl, hpl, hmes]
  · rcases hpl : st.public_slave_list with _ | pv
    · rcases hml : st.master_list with _ | mv
      · rcases hmaster with hne' | hex
        · exact absurd hml hne'
        · refine ⟨{ st with
              master_list := some (pySorted env.exhibitor_servers),
              public_slave_list := some (publicHostnames env.mesos_slaves) },
            ?_, by simp [hsl], by simp [hpl], hforall⟩
          simp [set_node_lists_if_unset, hml, hsl, hpl, hmes, hex]
      · refine ⟨{ st with
            public_slave_list := some (publicHostnames env.mesos_slaves) },
          ?_, by simp [hsl], by simp [hpl], hforall⟩
        simp [set_node_lists_if_unset, hml, hsl, hpl, hmes]
    · exact absurd ⟨by simp [hsl], by simp [hpl]⟩ hne

/-- Closed instance of `set_node_lists_mesos_partition` at a session with
no slave lists and the two-slave mesos response of `envAllOk`. -/
theorem set_node_lists_mesos_partition_witness :
    ∃ st', (set_node_lists_if_unset envAllOk stAllNone).2 = Except.ok st' ∧
      st'.slave_list = (if stAllNone.slave_list = none
        then some (privateHostnames envAllOk.mesos_slaves) else stAllNone.slave_list) ∧
      st'.public_slave_list = (if stAllNone.public_slave_list = none
        then some (publicHostnames envAllOk.mesos_slaves) else stAllNone.public_slave_list) ∧
      ∀ x ∈ envAllOk.mesos_slaves,
        (x.public_ip = some "true" ∧ x.hostname ∈ publicHostnames envAllOk.mesos_slaves ∧
          x ∉ envAllOk.mesos_slaves.filter (fun s => !(s.public_ip == some "true"))) ∨
        (x.public_ip ≠ some "true" ∧ x.hostname ∈ privateHostnames envAllOk.mesos_slaves ∧
          x ∉ envAllOk.mesos_slaves.filter (fun s => s.public_ip == some "true")) :=
  set_node_lists_mesos_partition envAllOk stAllNone
    (by simp [stAllNone, stAllSet]) (Or.inr rfl) rfl

/-- C1 counterexample: with `WAIT_FOR_HOSTS` unset (enabled by default)
and the master list `None`, `wait_for_dcos` does raise the configuration
error — but only after the admin-router connectivity sub-check and the
login sub-check have already run, so the raise does not happen before
every readiness sub-check. -/
theorem wait_for_dcos_config_error_after_connectivity :
    wait_for_dcos envAllOk stNoMasters =
      ([Step.checkAdminrouter, Step.checkLogin], Except.error DcosError.configError) ∧
    Step.checkAdminrouter ∈ (wait_for_dcos envAllOk stNoMasters).1 := by
  exact ⟨rfl, by decide⟩

/-- C1 amended: if wait-for-hosts is enabled (`WAIT_FOR_HOSTS` unset or
`'true'`) and, after connectivity and login, some node list is still
`None`, `wait_for_dcos` raises the configuration exception before any
topology-discovery request and before any of the readiness sub-checks
that follow topology resolution; only connectivity and authentication
have run. -/
theorem wait_for_dcos_config_error_before_discovery (env : Env) (st : SessionState)
    (tr : List Step) (st1 : SessionState)
    (hadmin : env.adminrouter_ok = true)
    (hlogin : login_default_user env st = (tr, Except.ok st1))
    (hwait : (pyGetenv env.vars "WAIT_FOR_HOSTS").getD "true" = "true")
    (hmiss : st1.master_list = none ∨ st1.slave_list = none ∨
      st1.public_slave_list = none) :
    wait_for_dcos env st =
      ([Step.checkAdminrouter, Step.checkLogin], Except.error DcosError.configError) := by
  have hset : (st1.master_list.isSome && st1.slave_list.isSome &&
      st1.public_slave_list.isSome) = false := by
    rcases hmiss with h | h | h <;> simp [h]
  simp [wait_for_dcos, hadmin, hlogin, hwait, hset, preTrace]

/-- Closed instance of `wait_for_dcos_config_error_before_discovery` at a
session missing its master list under the default environment. -/
theorem wait_for_dcos_config_error_before_discovery_witness :
    wait_for_dcos envAllOk stNoMasters =
      ([Step.checkAdminrouter, Step.checkLogin], Except.error DcosError.configError) :=
  wait_for_dcos_config_error_before_discovery envAllOk stNoMasters [] stNoMasters
    rfl rfl rfl (Or.inl rfl)

/-- C2 counterexample: when the private slave list is `None` and the
environment demands waiting (`WAIT_FOR_HOSTS` unset, hence enabled),
`wait_for_dcos` raises the configuration error and performs no discovery
request at all — it does not populate the missing list from live cluster
state. -/
theorem wait_for_dcos_no_discovery_when_waiting :
    wait_for_dcos envAllOk stNoSlaves =
      ([Step.checkAdminrouter, Step.checkLogin], Except.error DcosError.configError) ∧
    Step.getMesosSlaves ∉ (wait_for_dcos envAllOk stNoSlaves).1 ∧
    Step.getExhibitorList ∉ (wait_for_dcos envAllOk stNoSlaves).1 := by
  exact ⟨rfl, by decide, by decide⟩

/-- When the requests it needs succeed, `set_node_lists_if_unset`
returns successfully, setting each node list that was `None` from the
corresponding live-cluster source and leaving each supplied list
unchanged. -/
theorem set_node_lists_populates (env : Env) (st : SessionState)
    (hex : st.master_list = none → env.exhibitor_ok = true)
    (hmes : st.slave_list = none ∨ st.public_slave_list = none →
      env.mesos_ok = true) :
    ∃ st', (set_node_lists_if_unset env st).2 = Except.ok st' ∧
      st'.master_list = (if st.master_list = none
        then some (pySorted env.exhibitor_servers) else st.master_list) ∧
      st'.slave_list = (if st.slave_list = none
        then some (privateHostnames env.mesos_slaves) else st.slave_list) ∧
      st'.public_slave_list = (if st.public_slave_list = none
        then some (publicHostnames env.mesos_slaves) else st.public_slave_list) := by
  rcases hml : st.master_list with _ | mv
  · have hex' : env.exhibitor_ok = true := hex hml
    rcases hsl : st.slave_list with _ | sv
    · have hmes' : env.mesos_ok = true := hmes (Or.inl hsl)
      rcases hpl : st.public_slave_list with _ | pv
      · exact ⟨{ st with
            master_list := some (pySorted env.exhibitor_servers),
            slave_list := some (privateHostnames env.mesos_slaves),
            public_slave_list := some (publicHostnames env.mesos_slaves) },
          by simp [set_node_lists_if_unset, hml, hsl, hpl, hex', hmes'],
          by simp [hml], by simp [hsl], by simp [hpl]⟩
      · exact ⟨{ st with
            master_list := some (pySorted env.exhibitor_servers),
            slave_list := some (privateHostnames env.mesos_slaves) },
          by simp [set_node_lists_if_unset, hml, hsl, hpl, hex', hmes'],
          by simp [hml], by simp [hsl], by simp [hpl]⟩
    · rcases hpl : st.public_slave_list with _ | pv
      · have hmes' : env.mesos_ok = true := hmes (Or.inr hpl)
        exact ⟨{ st with
            master_list := some (pySorted env.exhibitor_servers),
            public_slave_list := some (publicHostnames env.mesos_slaves) },
          by simp [set_node_lists_if_unset, hml, hsl, hpl, hex', hmes'],
          by simp [hml], by simp [hsl], by simp [hpl]⟩
      · exact ⟨{ st with
            master_list := some (pySorted env.exhibitor_servers) },
          by simp [set_node_lists_if_unset, hml, hsl, hpl, hex'],
          by simp [hml], by simp [hsl], by simp [hpl]⟩
  · rcases hsl : st.slave_list with _ | sv
    · have hmes' : env.mesos_ok = true := hmes (Or.inl hsl)
      rcases hpl : st.public_slave_list with _ | pv
      · exact ⟨{ st with
            slave_list := some (privateHostnames env.mesos_slaves),
            public_slave_list := some (publicHostnames env.mesos_slaves) },
          by simp [set_node_lists_if_unset, hml, hsl, hpl, hmes'],
          by simp [hml], by simp [hsl], by simp [hpl]⟩
      · exact ⟨{ st with
            slave_list := some (privateHostnames env.mesos_slaves) },
          by simp [set_node_lists_if_unset, hml, hsl, hpl, hmes'],
          by simp [hml], by simp [hsl], by simp [hpl]⟩
    · rcases hpl : st.public_slave_list with _ | pv
      · have hmes' : env.mesos_ok = true := hmes (Or.inr hpl)
        exact ⟨{ st with
            public_slave_list := some (publicHostnames env.mesos_slaves) },
          by simp [set_node_lists_if_unset, hml, hsl, hpl, hmes'],
          by simp [hml], by simp [hsl], by simp [hpl]⟩
      · exact ⟨st,
          by simp [set_node_lists_if_unset, hml, hsl, hpl],
          by simp [hml], by simp [hsl], by simp [hpl]⟩

/-- C2 amended: for every session in which, after connectivity and
login, some node list is `None`: if the environment does not demand
waiting (`WAIT_FOR_HOSTS` not equal to `'true'`), `wait_for_dcos`
populates each missing list from live cluster state — exhibitor for the
masters, mesos for the slave lists — and leaves supplied lists
unchanged, before the readiness sub-checks run; if waiting is demanded,
it instead raises the configuration error without any discovery
request. -/
theorem wait_for_dcos_discovery_when_not_waiting (env : Env) (st : SessionState)
    (tr : List Step) (st1 : SessionState)
    (hadmin : env.adminrouter_ok = true)
    (hlogin : login_default_user env st = (tr, Except.ok st1))
    (hmiss : st1.master_list = none ∨ st1.slave_list = none ∨
      st1.public_slave_list = none) :
    ((pyGetenv env.vars "WAIT_FOR_HOSTS").getD "true" = "true" →
      wait_for_dcos env st = (preTrace, Except.error DcosError.configError)) ∧
    ((pyGetenv env.vars "WAIT_FOR_HOSTS").getD "true" ≠ "true" →
      (st1.master_list = none → env.exhibitor_ok = true) →
      (st1.slave_list = none ∨ st1.public_slave_list = none →
        env.mesos_ok = true) →
      ∃ st' t r,
        wait_for_dcos env st =
          ((preTrace ++ (set_node_lists_if_unset env st1).1) ++ t, r) ∧
        tailChecks env st' = (t, r) ∧
        st'.master_list = (if st1.master_list = none
          then some (pySorted env.exhibitor_servers) else st1.master_list) ∧
        st'.slave_list = (if st1.slave_list = none
          then some (privateHostnames env.mesos_slaves) else st1.slave_list) ∧
        st'.public_slave_list = (if st1.public_slave_list = none
          then some (publicHostnames env.mesos_slaves)
          else st1.public_slave_list)) := by
  constructor
  · intro hwait
    have hset : (st1.master_list.isSome && st1.slave_list.isSome &&
        st1.public_slave_list.isSome) = false := by
      rcases hmiss with h | h | h <;> simp [h]
    simp [wait_for_dcos, hadmin, hlogin, hwait, hset, preTrace]
  · intro hwait hex hmes
    obtain ⟨st', hok, h1, h2, h3⟩ := set_node_lists_populates env st1 hex hmes
    rcases hdisc : set_node_lists_if_unset env st1 with ⟨d0, rd⟩
    rw [hdisc] at hok
    have hok' : rd = Except.ok st' := hok
    rcases htc : tailChecks env st' with ⟨t, r⟩
    refine ⟨st', t, r, ?_, htc, h1, h2, h3⟩
    simp [wait_for_dcos, hadmin, hlogin, hwait, hdisc, hok', htc]

/-- Closed instance of `wait_for_dcos_discovery_when_not_waiting` with
`WAIT_FOR_HOSTS=false`, an authenticated user, and only the private
slave list missing. -/
theorem wait_for_dcos_discovery_when_not_waiting_witness :
    ∃ st' t r,
      wait_for_dcos envNoWait stNoSlavesAuth =
        ((preTrace ++ (set_node_lists_if_unset envNoWait stNoSlavesAuth1).1) ++ t, r) ∧
      tailChecks envNoWait st' = (t, r) ∧
      st'.master_list = (if stNoSlavesAuth1.master_list = none
        then some (pySorted envNoWait.exhibitor_servers)
        else stNoSlavesAuth1.master_list) ∧
      st'.slave_list = (if stNoSlavesAuth1.slave_list = none
        then some (privateHostnames envNoWait.mesos_slaves)
        else stNoSlavesAuth1.slave_list) ∧
      st'.public_slave_list = (if stNoSlavesAuth1.public_slave_list = none
        then some (publicHostnames envNoWait.mesos_slaves)
        else stNoSlavesAuth1.public_slave_list) :=
  (wait_for_dcos_discovery_when_not_waiting envNoWait stNoSlavesAuth
      [] stNoSlavesAuth1 rfl rfl (Or.inr (Or.inl rfl))).2
    (by decide) (fun _ => rfl) (fun _ => rfl)

/-- The topology-resolution trace is always a sublist of
`[getExhibitorList, getMesosSlaves]`, in that order. -/
theorem set_node_lists_trace_sublist (env : Env) (st : SessionState) :
    ((set_node_lists_if_unset env st).1).Sublist
      [Step.getExhibitorList, Step.getMesosSlaves] := by
  rcases hml : st.master_list with _ | m <;>
  rcases hsl : st.slave_list with _ | sv <;>
  rcases hpl : st.public_slave_list with _ | pv <;>
  cases hex : env.exhibitor_ok <;>
  cases hmes : env.mesos_ok <;>
  simp [set_node_lists_if_unset, hml, hsl, hpl, hex, hmes]

/-- The tail-check trace always extends to the full `postTrace`. -/
theorem tailChecks_trace_extends (env : Env) (st : SessionState) :
    ∃ rest, (tailChecks env st).1 ++ rest = postTrace := by
  unfold tailChecks
  cases env.marathon_ok <;> cases env.zk_ok <;> cases env.slaves_join_ok <;>
    cases env.srouter_ok <;> cases env.metronome_ok <;> cases env.health_ok <;>
    first
    | exact ⟨[], rfl⟩
    | exact ⟨[Step.checkZkQuorum, Step.checkSlavesJoin, Step.checkSrouterEndpoints,
        Step.checkMetronome, Step.checkHealth], rfl⟩
    | exact ⟨[Step.checkSlavesJoin, Step.checkSrouterEndpoints,
        Step.checkMetronome, Step.checkHealth], rfl⟩
    | exact ⟨[Step.checkSrouterEndpoints, Step.checkMetronome, Step.checkHealth], rfl⟩
    | exact ⟨[Step.checkMetronome, Step.checkHealth], rfl⟩
    | exact ⟨[Step.checkHealth], rfl⟩

/-- A successful tail ran every check: its trace is exactly `postTrace`. -/
theorem tailChecks_ok_trace (env : Env) (st st' : SessionState)
    (h : (tailChecks env st).2 = Except.ok st') :
    (tailChecks env st).1 = postTrace := by
  revert h
  unfold tailChecks
  cases env.marathon_ok <;> cases env.zk_ok <;> cases env.slaves_join_ok <;>
    cases env.srouter_ok <;> cases env.metronome_ok <;> cases env.health_ok <;>
    intro h <;>
    first
    | rfl
    | exact absurd h (by simp)

/-- C6: `wait_for_dcos` runs its sub-checks in the fixed source order —
connectivity, authentication, topology resolution (at most an exhibitor
fetch followed by a mesos fetch), marathon, zk-quorum, slaves-join,
srouter endpoints, metronome, health. Every run's trace is a prefix of
that sequence, so a later sub-check starts only after all earlier ones
succeeded, and a successful run's trace is exactly that sequence. -/
theorem wait_for_dcos_fixed_order (env : Env) (st : SessionState) :
    ∃ d rest, d.Sublist [Step.getExhibitorList, Step.getMesosSlaves] ∧
      (wait_for_dcos env st).1 ++ rest = preTrace ++ d ++ postTrace ∧
      (∀ st', (wait_for_dcos env st).2 = Except.ok st' →
        (wait_for_dcos env st).1 = preTrace ++ d ++ postTrace) := by
  cases hadmin : env.adminrouter_ok with
  | false =>
    refine ⟨[], Step.checkLogin :: postTrace, List.nil_sublist _, ?_, ?_⟩
    · simp [wait_for_dcos, hadmin, preTrace]
    · intro st' h
      simp [wait_for_dcos, hadmin] at h
  | true =>
    rcases hlog : login_default_user env st with ⟨tr, rl⟩
    cases rl with
    | error e =>
      refine ⟨[], postTrace, List.nil_sublist _, ?_, ?_⟩
      · simp [wait_for_dcos, hadmin, hlog]
      · intro st' h
        simp [wait_for_dcos, hadmin, hlog] at h
    | ok st1 =>
      by_cases hcfg : (pyGetenv env.vars "WAIT_FOR_HOSTS").getD "true" = "true" ∧
          ((st1.master_list = none ∨ st1.slave_list = none) ∨
            st1.public_slave_list = none)
      case pos =>
        refine ⟨[], postTrace, List.nil_sublist _, ?_, ?_⟩
        · simp [wait_for_dcos, hadmin, hlog, hcfg]
        · intro st' h
          simp [wait_for_dcos, hadmin, hlog, hcfg] at h
      case neg =>
        rcases hdisc : set_node_lists_if_unset env st1 with ⟨d0, rd⟩
        have hd0 : d0.Sublist [Step.getExhibitorList, Step.getMesosSlaves] := by
          have hsub := set_node_lists_trace_sublist env st1
          rw [hdisc] at hsub
          exact hsub
        cases rd with
        | error e =>
          refine ⟨d0, postTrace, hd0, ?_, ?_⟩
          · simp [wait_for_dcos, hadmin, hlog, hcfg, hdisc]
          · intro st' h
            simp [wait_for_dcos, hadmin, hlog, hcfg, hdisc] at h
        | ok st2 =>
          rcases htc : tailChecks env st2 with ⟨t, rt⟩
          obtain ⟨restT, hrest⟩ : ∃ rest, t ++ rest = postTrace := by
            have hext := tailChecks_trace_extends env st2
            rw [htc] at hext
            exact hext
          refine ⟨d0, restT, hd0, ?_, ?_⟩
          · rw [← hrest]
            simp [wait_for_dcos, hadmin, hlog, hcfg, hdisc, htc]
          · intro st' h
            have h2 : rt = Except.ok st' := by
              simpa [wait_for_dcos, hadmin, hlog, hcfg, hdisc, htc] using h
            have h3 : (tailChecks env st2).1 = postTrace := by
              apply tailChecks_ok_trace env st2 st'
              rw [htc]
              exact h2
            rw [htc] at h3
            simp [wait_for_dcos, hadmin, hlog, hcfg, hdisc, htc, h3]

/-- Closed instance of `wait_for_dcos_fixed_order` at the all-ok
environment and a fully supplied session. -/
theorem wait_for_dcos_fixed_order_witness :
    ∃ d rest, d.Sublist [Step.getExhibitorList, Step.getMesosSlaves] ∧
      (wait_for_dcos envAllOk stAllSet).1 ++ rest = preTrace ++ d ++ postTrace ∧
      (∀ st', (wait_for_dcos envAllOk stAllSet).2 = Except.ok st' →
        (wait_for_dcos envAllOk stAllSet).1 = preTrace ++ d ++ postTrace) :=
  wait_for_dcos_fixed_order envAllOk stAllSet

end DcosApi
